import Mathlib

/-!
Shallow embedding of the B2 IoT gateway (`src/B2-iot-gateway/server.js`) of the
car-demo backend, together with proofs checking the specification's claims
about telemetry ingestion, the live-connection registry, and command routing.

Modelling conventions:
* JSON values appearing in telemetry frames and command payloads are modelled
  by `Val`; floats are modelled as rationals (no NaN), and the only nested
  object shape used by the system (a gps coordinate pair) is flattened into a
  dedicated constructor.
* A JS object is an association list `List (String × Val)` with unique keys in
  key-insertion order; `objSet` mirrors the semantics of writing a key in an
  object literal (override in place, else append).
* The `connectedCars` JS `Map` keyed by WebSocket handle is a
  `List (Nat × Val)` in insertion order; handles are identified by `Nat` ids,
  and the transport readyState of each handle is an environment `Nat → Bool`
  (`true` = OPEN), read at lookup time exactly as `ws.readyState` is.
* External dependencies (MongoDB, Redis, MQTT) and the success of their I/O
  calls are injected through `Env`; an I/O call whose flag is `false` throws in
  the JS source, and the embedding reproduces where that exception is caught.
* Timestamps (`new Date()` instants) are abstract `Nat` parameters supplied at
  each call, since the code only ever forwards them.
-/

/-- JSON-ish runtime values carried in telemetry frames and command bodies. -/
inductive Val where
  | str : String → Val
  | num : Rat → Val
  | bool : Bool → Val
  | gps : Rat → Rat → Val
  | date : Nat → Val
  | null : Val
  | undef : Val
deriving DecidableEq, Repr

/-- JavaScript truthiness of a `Val` (the `if (carData.licensePlate)` tests). -/
def truthy : Val → Bool
  | Val.str s => if s = "" then false else true
  | Val.num q => if q = 0 then false else true
  | Val.bool b => b
  | Val.gps _ _ => true
  | Val.date _ => true
  | Val.null => false
  | Val.undef => false

/-- JavaScript strict equality `v === p` between a stored value and a string
license plate: true exactly when `v` is that string. -/
def valEqStr : Val → String → Bool
  | Val.str s, p => if s = p then true else false
  | _, _ => false

/-- Property lookup `o[k]` on a JS object; `none` models an absent key
(reading it yields `undefined`). -/
def getField : List (String × Val) → String → Option Val
  | [], _ => none
  | (k', v) :: rest, k => if k' = k then some v else getField rest k

/-- Writing key `k` in an object literal: override in place if present,
else append (JS object key order). -/
def objSet : List (String × Val) → String → Val → List (String × Val)
  | [], k, v => [(k, v)]
  | (k', v') :: rest, k, v =>
      if k' = k then (k', v) :: rest else (k', v') :: objSet rest k v

/-- `connectedCars.set(ws, v)`: JS `Map.set` keeps the original insertion
position of an existing key and appends a new key at the end. -/
def mapSet : List (Nat × Val) → Nat → Val → List (Nat × Val)
  | [], w, v => [(w, v)]
  | (w', v') :: rest, w, v =>
      if w' = w then (w', v) :: rest else (w', v') :: mapSet rest w v

/-- `connectedCars.get(ws)`. -/
def mapGet : List (Nat × Val) → Nat → Option Val
  | [], _ => none
  | (w', v) :: rest, w => if w' = w then some v else mapGet rest w

/-- `connectedCars.delete(ws)` (Map keys are unique, so filtering is exact). -/
def mapDelete (l : List (Nat × Val)) (w : Nat) : List (Nat × Val) :=
  l.filter fun e => e.1 ≠ w

/-- The direct-send lookup loop shared by all three command paths:
`for (const [ws, carLicense] of connectedCars.entries())
   if (carLicense === licensePlate && ws.readyState === WebSocket.OPEN) ... break`.
Returns the handle the loop selects (the loop body then sends and breaks). -/
def findCar : List (Nat × Val) → (Nat → Bool) → String → Option Nat
  | [], _, _ => none
  | (w, lic) :: rest, o, p =>
      if valEqStr lic p && o w then some w else findCar rest o p

/-- Up/down state of the external dependencies and the outcome of the next
I/O call on each (`false` = the call throws / the client is absent). -/
structure Env where
  mongoUp : Bool
  redisUp : Bool
  storeOk : Bool
  publishOk : Bool
deriving Repr

/-- Redis channels used by the gateway. -/
inductive Chan where
  | data : Val → Chan
  | commands : String → Chan
deriving DecidableEq, Repr

/-- Payloads published on Redis: a forwarded telemetry frame, or the
`{licensePlate, command, timestamp}` object built by the command endpoint. -/
inductive PubMsg where
  | frame : List (String × Val) → PubMsg
  | cmd : String → Option Val → Nat → PubMsg
deriving DecidableEq, Repr

/-- An outbound WebSocket message `{type, command, timestamp}`;
`connection_confirmed` messages carry no command (`none`). -/
structure WireMsg where
  type : String
  command : Option Val
  timestamp : Nat
deriving DecidableEq, Repr

/-- Response of `POST /api/car/:licensePlate/command`: a 200 JSON body
`{success, directSent, ...}`, or the 500 error body from the catch block. -/
inductive CmdResponse where
  | ok (success : Bool) (directSent : Bool)
  | err
deriving DecidableEq, Repr

/-- HTTP status code of a command response. -/
def statusOf : CmdResponse → Nat
  | CmdResponse.ok _ _ => 200
  | CmdResponse.err => 500

/-- Observable gateway state: the `connectedCars` map, the `car_data`
collection (insertion order), the Redis publishes and the WebSocket sends
performed so far. -/
structure GatewayState where
  registry : List (Nat × Val)
  storeRecords : List (List (String × Val))
  published : List (Chan × PubMsg)
  sends : List (Nat × WireMsg)
deriving Repr

/-- The state at process start. -/
def initState : GatewayState := ⟨[], [], [], []⟩

/-- The document built by `storeCarData`:
`{...carData, timestamp: new Date(), _id: undefined}`. -/
def mkDocument (carData : List (String × Val)) (now : Nat) : List (String × Val) :=
  objSet (objSet carData "timestamp" (Val.date now)) "_id" Val.undef

/-- `storeCarData(carData)` (server.js:163-181): returns early when
`mongoClient` is absent; otherwise inserts the document, catching and logging
any `insertOne` error inside its own try block. -/
def storeCarData (env : Env) (st : GatewayState) (carData : List (String × Val))
    (now : Nat) : GatewayState :=
  if env.mongoUp then
    if env.storeOk then
      { st with storeRecords := st.storeRecords ++ [mkDocument carData now] }
    else st
  else st

/-- The WebSocket message handler body (server.js:120-145) on a parsed frame:
register the handle when the frame has a truthy `licensePlate`, store via
`storeCarData`, then publish the frame on `car:{plate}:data` when Redis is up
and the plate is truthy. A throwing publish is caught by the handler's catch
block, after which nothing else runs. -/
def onMessage (env : Env) (st : GatewayState) (ws : Nat)
    (carData : List (String × Val)) (now : Nat) : GatewayState :=
  let plateVal := getField carData "licensePlate"
  let st1 :=
    match plateVal with
    | some v => if truthy v then { st with registry := mapSet st.registry ws v } else st
    | none => st
  let st2 := storeCarData env st1 carData now
  match plateVal with
  | some v =>
      if truthy v then
        if env.redisUp then
          if env.publishOk then
            { st2 with published := st2.published ++ [(Chan.data v, PubMsg.frame carData)] }
          else st2
        else st2
      else st2
  | none => st2

/-- The raw message handler: `JSON.parse` failure (`none`) is caught by the
handler's catch block and leaves the state unchanged. -/
def onRaw (env : Env) (st : GatewayState) (ws : Nat)
    (msg : Option (List (String × Val))) (now : Nat) : GatewayState :=
  match msg with
  | some d => onMessage env st ws d now
  | none => st

/-- Connection establishment (server.js:117-160 head): the server sends a
`connection_confirmed` message; the registry is untouched. -/
def onConnect (st : GatewayState) (ws : Nat) (now : Nat) : GatewayState :=
  { st with sends := st.sends ++ [(ws, ⟨"connection_confirmed", none, now⟩)] }

/-- The close handler (server.js:147-153): look the handle up, and delete the
entry only when a truthy plate is found for it. -/
def onClose (st : GatewayState) (ws : Nat) : GatewayState :=
  match mapGet st.registry ws with
  | some v => if truthy v then { st with registry := mapDelete st.registry ws } else st
  | none => st

/-- One observable event on the WebSocket server. -/
inductive Event where
  | connect (ws : Nat) (now : Nat)
  | message (ws : Nat) (msg : Option (List (String × Val))) (now : Nat)
  | close (ws : Nat)
deriving DecidableEq, Repr

/-- Dispatch one event to its handler. -/
def step (env : Env) (st : GatewayState) : Event → GatewayState
  | Event.connect ws now => onConnect st ws now
  | Event.message ws m now => onRaw env st ws m now
  | Event.close ws => onClose st ws

/-- Run a sequence of events from a given state. -/
def runFrom (env : Env) (st : GatewayState) (evs : List Event) : GatewayState :=
  evs.foldl (step env) st

/-- Run a sequence of events from process start. -/
def run (env : Env) (evs : List Event) : GatewayState :=
  runFrom env initState evs

/-- Sequential processing of one connection's inbound frames; the environment
may differ per frame (each I/O call can fail independently). -/
def processFrames (st : GatewayState) (ws : Nat)
    (items : List (Env × Option (List (String × Val)) × Nat)) : GatewayState :=
  items.foldl (fun s it => onRaw it.1 s ws it.2.1 it.2.2) st

/-- `POST /api/car/:licensePlate/command` (server.js:389-429): publish the
`{licensePlate, command, timestamp}` object on `car:{plate}:commands` when
Redis is up (a throwing publish reaches the catch block and yields the 500
response), then run the direct-send loop and answer
`{success: true, directSent: sent, ...}`. -/
def postCommand (env : Env) (st : GatewayState) (o : Nat → Bool) (plate : String)
    (body : List (String × Val)) (now : Nat) : CmdResponse × GatewayState :=
  let command := getField body "command"
  if env.redisUp then
    if env.publishOk then
      let st1 := { st with published :=
        st.published ++ [(Chan.commands plate, PubMsg.cmd plate command now)] }
      match findCar st1.registry o plate with
      | some w =>
          (CmdResponse.ok true true,
           { st1 with sends := st1.sends ++ [(w, ⟨"command", command, now⟩)] })
      | none => (CmdResponse.ok true false, st1)
    else (CmdResponse.err, st)
  else
    match findCar st.registry o plate with
    | some w =>
        (CmdResponse.ok true true,
         { st with sends := st.sends ++ [(w, ⟨"command", command, now⟩)] })
    | none => (CmdResponse.ok true false, st)

/-- `handleCarCommand` (server.js:184-204) on a Redis command message: `none`
models an unparseable message (caught and logged); a parsed one carries the
plate, the (possibly absent) command and the forwarded timestamp. -/
def handleCarCommand (st : GatewayState) (o : Nat → Bool)
    (msg : Option (String × Option Val × Nat)) : GatewayState :=
  match msg with
  | none => st
  | some (plate, command, ts) =>
      match findCar st.registry o plate with
      | some w => { st with sends := st.sends ++ [(w, ⟨"command", command, ts⟩)] }
      | none => st

/-- `handleMqttMessage` (server.js:206-231): the plate comes from the topic;
a cloud command is forwarded only when `data.command` is truthy. -/
def handleMqttMessage (st : GatewayState) (o : Nat → Bool) (plate : String)
    (data : Option (List (String × Val))) (now : Nat) : GatewayState :=
  match data with
  | none => st
  | some d =>
      match getField d "command" with
      | some c =>
          if truthy c then
            match findCar st.registry o plate with
            | some w =>
                { st with sends := st.sends ++ [(w, ⟨"cloud_command", some c, now⟩)] }
            | none => st
          else st
      | none => st

/-- `GET /health` reports `connectedCars: connectedCars.size`. -/
def healthCount (st : GatewayState) : Nat := st.registry.length

/-- Modelled from the spec: the telemetry temperature range `[-50, 100]` of
§3/§8 (the gateway source contains no validator to embed). -/
def tempInRange (q : Rat) : Prop := -50 ≤ q ∧ q ≤ 100

instance (q : Rat) : Decidable (tempInRange q) := by
  unfold tempInRange; infer_instance

-- Concrete inputs used by witnesses and counterexamples.

/-- All external dependencies up and every I/O call succeeding. -/
def envUp : Env := ⟨true, true, true, true⟩

/-- The scenario telemetry frame of spec §8. -/
def frameScenario : List (String × Val) :=
  [("licensePlate", Val.str "ABC-123"), ("indoorTemp", Val.num 22.5),
   ("outdoorTemp", Val.num 15.2), ("gps", Val.gps 60.1699 24.9384)]

/-- A frame whose `indoorTemp` 150 lies outside `[-50, 100]`. -/
def frame150 : List (String × Val) :=
  [("licensePlate", Val.str "ABC-123"), ("indoorTemp", Val.num 150)]

-- Helper lemmas about the embedded JS object / Map operations.

theorem getField_objSet_self (o : List (String × Val)) (k : String) (v : Val) :
    getField (objSet o k v) k = some v := by
  induction o with
  | nil => simp [objSet, getField]
  | cons e rest ih =>
      by_cases h : e.1 = k
      · simp [objSet, getField, h]
      · simp [objSet, getField, h, ih]

theorem getField_objSet_ne (o : List (String × Val)) (k k' : String) (v : Val)
    (h : k' ≠ k) : getField (objSet o k v) k' = getField o k' := by
  induction o with
  | nil => simp [objSet, getField, Ne.symm h]
  | cons e rest ih =>
      by_cases he : e.1 = k
      · subst he
        simp [objSet, getField, Ne.symm h, h, ih]
      · by_cases he' : e.1 = k' <;> simp [objSet, getField, he, he', h, ih]

theorem mapGet_mapSet (l : List (Nat × Val)) (w w' : Nat) (v : Val) :
    mapGet (mapSet l w v) w' = if w' = w then some v else mapGet l w' := by
  induction l with
  | nil =>
      by_cases h : w' = w
      · simp [mapSet, mapGet, h]
      · simp [mapSet, mapGet, h, Ne.symm h]
  | cons e rest ih =>
      by_cases he : e.1 = w
      · subst he
        by_cases h : w' = e.1
        · simp [mapSet, mapGet, h]
        · have h2 : ¬ e.1 = w' := fun hh => h hh.symm
          simp [mapSet, mapGet, h, h2]
      · by_cases he' : e.1 = w'
        · have h2 : ¬ w' = w := fun hh => he (he'.trans hh)
          simp [mapSet, mapGet, he, he', h2]
        · simp [mapSet, mapGet, he, he', ih]

theorem mapGet_mapDelete (l : List (Nat × Val)) (w w' : Nat) :
    mapGet (mapDelete l w) w' = if w' = w then none else mapGet l w' := by
  induction l with
  | nil => simp [mapDelete, mapGet]
  | cons e rest ih =>
      by_cases he : e.1 = w
      · subst he
        have hd : mapDelete (e :: rest) e.1 = mapDelete rest e.1 := by
          simp [mapDelete]
        rw [hd, ih]
        by_cases h : w' = e.1
        · simp [h]
        · have h2 : ¬ e.1 = w' := fun hh => h hh.symm
          simp [h, mapGet, h2]
      · have hd : mapDelete (e :: rest) w = e :: mapDelete rest w := by
          simp [mapDelete, he]
        rw [hd]
        by_cases he' : e.1 = w'
        · have h2 : ¬ w' = w := fun hh => he (he'.trans hh)
          simp [mapGet, he', h2]
        · simp [mapGet, he', ih]

theorem mapGet_mem (l : List (Nat × Val)) (w : Nat) (v : Val)
    (h : mapGet l w = some v) : (w, v) ∈ l := by
  induction l with
  | nil => simp [mapGet] at h
  | cons e rest ih =>
      by_cases he : e.1 = w
      · simp [mapGet, he] at h
        obtain ⟨a, b⟩ := e
        simp at he
        subst he
        subst h
        exact List.mem_cons_self _ _
      · simp [mapGet, he] at h
        exact List.mem_cons_of_mem _ (ih h)

theorem keys_mapSet (l : List (Nat × Val)) (w : Nat) (v : Val) :
    (mapSet l w v).map Prod.fst =
      if w ∈ l.map Prod.fst then l.map Prod.fst else l.map Prod.fst ++ [w] := by
  induction l with
  | nil => simp [mapSet]
  | cons e rest ih =>
      by_cases he : e.1 = w
      · subst he
        simp [mapSet]
      · have hne : ¬ w = e.1 := fun hh => he hh.symm
        by_cases hmem : w ∈ rest.map Prod.fst <;>
          simp [mapSet, he, hne, hmem, ih]

theorem nodup_keys_mapSet (l : List (Nat × Val)) (w : Nat) (v : Val)
    (h : (l.map Prod.fst).Nodup) : ((mapSet l w v).map Prod.fst).Nodup := by
  rw [keys_mapSet]
  by_cases hmem : w ∈ l.map Prod.fst
  · simpa [hmem] using h
  · simpa [hmem, List.nodup_append] using h

theorem nodup_keys_mapDelete (l : List (Nat × Val)) (w : Nat)
    (h : (l.map Prod.fst).Nodup) : ((mapDelete l w).map Prod.fst).Nodup := by
  exact ((List.filter_sublist l).map Prod.fst).nodup h

-- Characterizations of the direct-send lookup loop.

theorem findCar_eq_find? (l : List (Nat × Val)) (o : Nat → Bool) (p : String) :
    findCar l o p = (l.find? fun e => valEqStr e.2 p && o e.1).map Prod.fst := by
  induction l with
  | nil => simp [findCar]
  | cons e rest ih =>
      by_cases h : (valEqStr e.2 p && o e.1) = true
      · simp [findCar, h, List.find?_cons_of_pos]
      · rw [List.find?_cons_of_neg _ (by simpa using h)]
        simpa [findCar, h] using ih

theorem findCar_mem_open (l : List (Nat × Val)) (o : Nat → Bool) (p : String)
    (w : Nat) (h : findCar l o p = some w) :
    o w = true ∧ ∃ v, (w, v) ∈ l ∧ valEqStr v p = true := by
  induction l with
  | nil => simp [findCar] at h
  | cons e rest ih =>
      by_cases hc : (valEqStr e.2 p && o e.1) = true
      · simp [findCar, hc] at h
        have h1 : valEqStr e.2 p = true := (Bool.and_eq_true_iff.mp hc).1
        have h2 : o e.1 = true := (Bool.and_eq_true_iff.mp hc).2
        subst h
        exact ⟨h2, e.2, by simp, h1⟩
      · simp [findCar, hc] at h
        obtain ⟨h1, v, h2, h3⟩ := ih h
        exact ⟨h1, v, List.mem_cons_of_mem _ h2, h3⟩

theorem findCar_eq_none (l : List (Nat × Val)) (o : Nat → Bool) (p : String)
    (h : ∀ e ∈ l, valEqStr e.2 p = true → o e.1 = false) :
    findCar l o p = none := by
  induction l with
  | nil => simp [findCar]
  | cons e rest ih =>
      have hc : (valEqStr e.2 p && o e.1) ≠ true := by
        intro hc
        have h1 : valEqStr e.2 p = true := (Bool.and_eq_true_iff.mp hc).1
        have h2 : o e.1 = true := (Bool.and_eq_true_iff.mp hc).2
        have := h e (by simp) h1
        simp [this] at h2
      simp [findCar, hc]
      exact ih fun a ha => h a (List.mem_cons_of_mem _ ha)

theorem findCar_isSome (l : List (Nat × Val)) (o : Nat → Bool) (p : String)
    (h : ∃ e ∈ l, valEqStr e.2 p = true ∧ o e.1 = true) :
    ∃ w, findCar l o p = some w := by
  induction l with
  | nil => simp at h
  | cons e rest ih =>
      by_cases hc : (valEqStr e.2 p && o e.1) = true
      · exact ⟨e.1, by simp [findCar, hc]⟩
      · obtain ⟨a, ha, h1, h2⟩ := h
        rcases List.mem_cons.mp ha with rfl | ha'
        · exact absurd (Bool.and_eq_true_iff.mpr ⟨h1, h2⟩) hc
        · obtain ⟨w, hw⟩ := ih ⟨a, ha', h1, h2⟩
          exact ⟨w, by simp [findCar, hc, hw]⟩

-- Trace-level view of identification and closure, used by the session claims.

/-- Whether an event is an identifying frame from handle `ws`: a parsed
message whose `licensePlate` field is present and truthy. -/
def identifies (e : Event) (ws : Nat) : Bool :=
  match e with
  | Event.message w (some d) _ =>
      if w = ws then
        match getField d "licensePlate" with
        | some v => truthy v
        | none => false
      else false
  | _ => false

/-- Whether an event closes handle `ws`. -/
def closesConn (e : Event) (ws : Nat) : Bool :=
  match e with
  | Event.close w => if w = ws then true else false
  | _ => false

/-- Replay of a trace tracking whether `ws` currently owns a registry entry:
an identifying frame sets the flag, a close clears it. -/
def trackLive (evs : List Event) (ws : Nat) (b : Bool) : Bool :=
  evs.foldl
    (fun b e => if identifies e ws then true else if closesConn e ws then false else b) b

/-- Whether handle `ws` owns an entry of the `connectedCars` map. -/
def isRegistered (st : GatewayState) (ws : Nat) : Bool :=
  (mapGet st.registry ws).isSome

/-- Registry well-formedness: every stored license-plate value is truthy
(the message handler only ever stores truthy values). -/
def regWF (l : List (Nat × Val)) : Prop := ∀ e ∈ l, truthy e.2 = true

theorem regWF_mapSet (l : List (Nat × Val)) (w : Nat) (v : Val)
    (h : regWF l) (hv : truthy v = true) : regWF (mapSet l w v) := by
  induction l with
  | nil => intro e he; simp [mapSet] at he; simp [he, hv]
  | cons a rest ih =>
      intro e he
      by_cases ha : a.1 = w
      · simp [mapSet, ha] at he
        rcases he with he | he
        · simp [he, hv]
        · exact h e (List.mem_cons_of_mem _ he)
      · simp [mapSet, ha] at he
        rcases he with he | he
        · exact h e (by simp [he])
        · exact ih (fun a' ha' => h a' (List.mem_cons_of_mem _ ha')) e he

theorem regWF_mapDelete (l : List (Nat × Val)) (w : Nat) (h : regWF l) :
    regWF (mapDelete l w) := by
  intro e he
  exact h e (List.mem_of_mem_filter he)

/-- The registry is not touched by `storeCarData`. -/
theorem registry_storeCarData (env : Env) (st : GatewayState)
    (d : List (String × Val)) (t : Nat) :
    (storeCarData env st d t).registry = st.registry := by
  unfold storeCarData
  split <;> try rfl
  split <;> rfl

/-- The registry after the message handler: updated exactly when the frame
carries a truthy `licensePlate`. -/
theorem registry_onMessage (env : Env) (st : GatewayState) (ws : Nat)
    (d : List (String × Val)) (t : Nat) :
    (onMessage env st ws d t).registry =
      match getField d "licensePlate" with
      | some v => if truthy v then mapSet st.registry ws v else st.registry
      | none => st.registry := by
  unfold onMessage
  cases hp : getField d "licensePlate" with
  | none => simp [hp, registry_storeCarData]
  | some v =>
      by_cases hv : truthy v = true
      · simp only [hp, hv, if_true]
        cases hr : env.redisUp <;> cases hq : env.publishOk <;>
          simp [registry_storeCarData, hr, hq]
      · simp only [hp, Bool.not_eq_true] at hv
        simp [hp, hv, registry_storeCarData]

/-- The registry after the close handler: the closing handle's entry is gone,
all other entries are untouched (given well-formedness). -/
theorem isRegistered_onClose (st : GatewayState) (w ws : Nat)
    (h : regWF st.registry) :
    isRegistered (onClose st w) ws = if ws = w then false else isRegistered st ws := by
  unfold onClose
  cases hg : mapGet st.registry w with
  | none =>
      by_cases hw : ws = w
      · subst hw; simp [isRegistered, hg]
      · simp [isRegistered, hw]
  | some v =>
      have hv : truthy v = true := h (w, v) (mapGet_mem _ _ _ hg)
      simp only [hv, if_true]
      by_cases hw : ws = w <;>
        simp [isRegistered, mapGet_mapDelete, hw]

/-- One step of the event semantics moves `isRegistered` exactly as the
trace-level replay does. -/
theorem isRegistered_step (env : Env) (st : GatewayState) (e : Event) (ws : Nat)
    (h : regWF st.registry) :
    isRegistered (step env st e) ws =
      if identifies e ws then true
      else if closesConn e ws then false
      else isRegistered st ws := by
  cases e with
  | connect w t => simp [step, onConnect, identifies, closesConn, isRegistered]
  | close w =>
      rw [show step env st (Event.close w) = onClose st w from rfl,
        isRegistered_onClose st w ws h]
      by_cases hw : w = ws
      · subst hw; simp [identifies, closesConn]
      · have hw' : ¬ ws = w := fun hh => hw hh.symm
        simp [identifies, closesConn, hw, hw']
  | message w m t =>
      cases m with
      | none => simp [step, onRaw, identifies, closesConn]
      | some d =>
          have hreg := registry_onMessage env st w d t
          simp only [step, onRaw]
          cases hp : getField d "licensePlate" with
          | none =>
              simp only [isRegistered, hreg, hp, identifies, closesConn]
              by_cases hw : w = ws <;> simp [hw]
          | some v =>
              by_cases hv : truthy v = true
              · simp only [isRegistered, hreg, hp, hv, if_true, identifies, closesConn]
                by_cases hw : w = ws
                · subst hw; simp [mapGet_mapSet, hv]
                · have hw' : ¬ ws = w := fun hh => hw hh.symm
                  simp [mapGet_mapSet, hw, hw', hv]
              · simp only [Bool.not_eq_true] at hv
                simp only [isRegistered, hreg, hp, hv, identifies, closesConn]
                by_cases hw : w = ws <;> simp [hw, hv]

/-- One step preserves registry well-formedness. -/
theorem regWF_step (env : Env) (st : GatewayState) (e : Event)
    (h : regWF st.registry) : regWF (step env st e).registry := by
  cases e with
  | connect w t => simpa [step, onConnect] using h
  | close w =>
      simp only [step, onClose]
      cases hg : mapGet st.registry w with
      | none => exact h
      | some v =>
          by_cases hv : truthy v = true
          · simpa [hv] using regWF_mapDelete st.registry w h
          · simp only [Bool.not_eq_true] at hv
            simpa [hv] using h
  | message w m t =>
      cases m with
      | none => simpa [step, onRaw] using h
      | some d =>
          have hreg := registry_onMessage env st w d t
          simp only [step, onRaw]
          rw [show (onMessage env st w d t).registry = _ from hreg]
          cases hp : getField d "licensePlate" with
          | none => exact h
          | some v =>
              by_cases hv : truthy v = true
              · simpa [hv] using regWF_mapSet st.registry w v h hv
              · simp only [Bool.not_eq_true] at hv
                simpa [hv] using h

/-- Running a trace moves `isRegistered` exactly as the replay does. -/
theorem isRegistered_runFrom (env : Env) (evs : List Event) (st : GatewayState)
    (ws : Nat) (h : regWF st.registry) :
    isRegistered (runFrom env st evs) ws = trackLive evs ws (isRegistered st ws) := by
  induction evs generalizing st with
  | nil => simp [runFrom, trackLive]
  | cons e rest ih =>
      have h1 := isRegistered_step env st e ws h
      have h2 := regWF_step env st e h
      simp only [runFrom, List.foldl_cons, trackLive] at ih ⊢
      rw [ih (step env st e) h2, h1]

/-- A replay starting from `false` that never sees an identifying frame for
`ws` stays `false`. -/
theorem trackLive_stays_false (evs : List Event) (ws : Nat)
    (h : ∀ e ∈ evs, identifies e ws = false) : trackLive evs ws false = false := by
  induction evs with
  | nil => simp [trackLive]
  | cons e rest ih =>
      have he := h e (by simp)
      simp only [trackLive, List.foldl_cons, he, Bool.false_eq_true, if_false]
      by_cases hc : closesConn e ws = true <;>
        simpa [trackLive, hc] using ih fun a ha => h a (List.mem_cons_of_mem _ ha)

/-- A replay can only end `true` if it started `true` or saw an identifying
frame. -/
theorem trackLive_true_source (evs : List Event) (ws : Nat) (b : Bool)
    (h : trackLive evs ws b = true) :
    b = true ∨ ∃ e ∈ evs, identifies e ws = true := by
  induction evs generalizing b with
  | nil => exact Or.inl (by simpa [trackLive] using h)
  | cons e rest ih =>
      simp only [trackLive, List.foldl_cons] at h
      rcases ih _ h with hb | ⟨a, ha, hid⟩
      · by_cases hi : identifies e ws = true
        · exact Or.inr ⟨e, by simp, hi⟩
        · by_cases hc : closesConn e ws = true
          · simp [hi, hc] at hb
          · simp [hi, hc] at hb
            exact Or.inl hb
      · exact Or.inr ⟨a, List.mem_cons_of_mem _ ha, hid⟩

/-- Registry keys stay duplicate-free across a step. -/
theorem nodup_keys_step (env : Env) (st : GatewayState) (e : Event)
    (h : (st.registry.map Prod.fst).Nodup) :
    ((step env st e).registry.map Prod.fst).Nodup := by
  cases e with
  | connect w t => simpa [step, onConnect] using h
  | close w =>
      simp only [step, onClose]
      cases hg : mapGet st.registry w with
      | none => exact h
      | some v =>
          by_cases hv : truthy v = true
          · simpa [hv] using nodup_keys_mapDelete st.registry w h
          · simp only [Bool.not_eq_true] at hv
            simpa [hv] using h
  | message w m t =>
      cases m with
      | none => simpa [step, onRaw] using h
      | some d =>
          simp only [step, onRaw]
          rw [show (onMessage env st w d t).registry = _ from
            registry_onMessage env st w d t]
          cases hp : getField d "licensePlate" with
          | none => exact h
          | some v =>
              by_cases hv : truthy v = true
              · simpa [hv] using nodup_keys_mapSet st.registry w v h
              · simp only [Bool.not_eq_true] at hv
                simpa [hv] using h

/-- Full-run registry invariant: truthy values and duplicate-free keys. -/
theorem run_registry_inv (env : Env) (evs : List Event) :
    regWF (run env evs).registry ∧ ((run env evs).registry.map Prod.fst).Nodup := by
  suffices h : ∀ st, regWF st.registry → (st.registry.map Prod.fst).Nodup →
      regWF (runFrom env st evs).registry ∧
        ((runFrom env st evs).registry.map Prod.fst).Nodup by
    exact h initState (by intro e he; simp [initState] at he) (by simp [initState])
  induction evs with
  | nil => intro st h1 h2; exact ⟨h1, h2⟩
  | cons e rest ih =>
      intro st h1 h2
      exact ih (step env st e) (regWF_step env st e h1) (nodup_keys_step env st e h2)

/-- Membership in the key list coincides with a successful `mapGet`. -/
theorem mem_keys_iff_mapGet (l : List (Nat × Val)) (ws : Nat) :
    ws ∈ l.map Prod.fst ↔ (mapGet l ws).isSome = true := by
  induction l with
  | nil => simp [mapGet]
  | cons e rest ih =>
      by_cases he : e.1 = ws
      · simp [mapGet, he]
      · have he2 : ¬ ws = e.1 := fun hh => he hh.symm
        simpa [mapGet, he, he2] using ih

-- Claim theorems.

/-- C1: the claim states a frame whose indoorTemp is outside [-50,100] fails
validation with OutOfRange and never reaches the telemetry store. The gateway
contains no validator: the message handler stores every parsed frame, so the
sink receives one record carrying the out-of-range value 150. -/
theorem c1_out_of_range_frame_reaches_sink :
    ¬ tempInRange 150 ∧
    getField frame150 "indoorTemp" = some (Val.num 150) ∧
    (onMessage envUp initState 1 frame150 7).storeRecords = [mkDocument frame150 7] ∧
    getField (mkDocument frame150 7) "indoorTemp" = some (Val.num 150) :=
  ⟨by decide, rfl, rfl, rfl⟩

/-- C2 counterexample: handles 1 and 2 register plate "DDD-111" in that
order and both stay OPEN; the direct-delivery lookup returns handle 1 (the
earliest registration), not the most recently registered handle 2, refuting
the claim. -/
theorem c2_counterexample :
    mapSet (mapSet [] 1 (Val.str "DDD-111")) 2 (Val.str "DDD-111") =
      [(1, Val.str "DDD-111"), (2, Val.str "DDD-111")] ∧
    findCar [(1, Val.str "DDD-111"), (2, Val.str "DDD-111")] (fun _ => true) "DDD-111"
      = some 1 ∧
    (1 : Nat) ≠ 2 :=
  ⟨rfl, rfl, by decide⟩

/-- C2 amended: when a deviceId is claimed by several registered live
handles, the lookup used for direct command delivery returns the EARLIEST
registered one: it is exactly the first entry in Map insertion order whose
plate matches and whose socket is OPEN. -/
theorem c2_find_returns_earliest_live (l : List (Nat × Val)) (o : Nat → Bool)
    (p : String) :
    findCar l o p = (l.find? fun e => valEqStr e.2 p && o e.1).map Prod.fst :=
  findCar_eq_find? l o p

/-- C3: handle A registers deviceId D, handle B then registers D, and A's
connection closes; the lookup for D still returns B. The close handler
deletes by connection handle, so a stale close never evicts the newer
session. -/
theorem c3_no_stale_eviction (env : Env) (A B t1 t2 : Nat) (D : String)
    (o : Nat → Bool) (hAB : A ≠ B) (hD : D ≠ "") (hopen : o B = true) :
    findCar (run env
      [Event.message A (some [("licensePlate", Val.str D)]) t1,
       Event.message B (some [("licensePlate", Val.str D)]) t2,
       Event.close A]).registry o D = some B := by
  have htr : truthy (Val.str D) = true := by simp [truthy, hD]
  have hstep1 : (step env initState
      (Event.message A (some [("licensePlate", Val.str D)]) t1)).registry
      = [(A, Val.str D)] := by
    show (onMessage env initState A _ t1).registry = _
    rw [registry_onMessage]
    simp [getField, htr, initState, mapSet]
  have hstep2 : (step env (step env initState
      (Event.message A (some [("licensePlate", Val.str D)]) t1))
      (Event.message B (some [("licensePlate", Val.str D)]) t2)).registry
      = [(A, Val.str D), (B, Val.str D)] := by
    show (onMessage env _ B _ t2).registry = _
    rw [registry_onMessage]
    simp [getField, htr, hstep1, mapSet, hAB]
  have hrun : run env
      [Event.message A (some [("licensePlate", Val.str D)]) t1,
       Event.message B (some [("licensePlate", Val.str D)]) t2,
       Event.close A]
      = step env (step env (step env initState
          (Event.message A (some [("licensePlate", Val.str D)]) t1))
          (Event.message B (some [("licensePlate", Val.str D)]) t2))
          (Event.close A) := by
    simp [run, runFrom]
  have hreg : (run env
      [Event.message A (some [("licensePlate", Val.str D)]) t1,
       Event.message B (some [("licensePlate", Val.str D)]) t2,
       Event.close A]).registry = [(B, Val.str D)] := by
    rw [hrun]
    show (onClose _ A).registry = _
    unfold onClose
    simp only [hstep2, mapGet]
    have hBA : ¬ B = A := fun hh => hAB hh.symm
    simp [htr, mapDelete, hBA]
  rw [hreg]
  simp [findCar, valEqStr, hopen]

/-- C3 witness at a concrete trace. -/
theorem c3_witness :
    findCar (run envUp
      [Event.message 1 (some [("licensePlate", Val.str "DDD-111")]) 0,
       Event.message 2 (some [("licensePlate", Val.str "DDD-111")]) 1,
       Event.close 1]).registry (fun _ => true) "DDD-111" = some 2 :=
  c3_no_stale_eviction envUp 1 2 0 1 "DDD-111" (fun _ => true)
    (by decide) (by decide) rfl

/-- C4: with the bus reachable, a command addressed to a plate with no
registered LIVE handle — every registry entry for that plate, if any, has a
non-OPEN socket — is still published on `car:{plate}:commands` and the
endpoint answers the 200 result object with `success` (republished) true and
`directSent` (delivered) false — never the 500 error response. -/
theorem c4_disconnected_target_not_error (env : Env) (st : GatewayState)
    (o : Nat → Bool) (plate : String) (body : List (String × Val)) (now : Nat)
    (hredis : env.redisUp = true) (hpub : env.publishOk = true)
    (hnolive : ∀ e ∈ st.registry, valEqStr e.2 plate = true → o e.1 = false) :
    (postCommand env st o plate body now).1 = CmdResponse.ok true false ∧
    (postCommand env st o plate body now).2.published =
      st.published ++
        [(Chan.commands plate, PubMsg.cmd plate (getField body "command") now)] ∧
    (postCommand env st o plate body now).1 ≠ CmdResponse.err := by
  have hfind : findCar st.registry o plate = none :=
    findCar_eq_none st.registry o plate hnolive
  unfold postCommand
  refine ⟨?_, ?_, ?_⟩ <;> simp [hredis, hpub, hfind]

/-- C4 witness: car XYZ-789 is registered on handle 5, but that socket is no
longer OPEN, so no live handle exists; the command is still republished. -/
theorem c4_witness :
    (postCommand envUp ⟨[(5, Val.str "XYZ-789")], [], [], []⟩ (fun _ => false)
        "XYZ-789" [("command", Val.str "start_heating")] 4).1 =
      CmdResponse.ok true false ∧
    (postCommand envUp ⟨[(5, Val.str "XYZ-789")], [], [], []⟩ (fun _ => false)
        "XYZ-789" [("command", Val.str "start_heating")] 4).2.published =
      [] ++
        [(Chan.commands "XYZ-789",
          PubMsg.cmd "XYZ-789"
            (getField [("command", Val.str "start_heating")] "command") 4)] ∧
    (postCommand envUp ⟨[(5, Val.str "XYZ-789")], [], [], []⟩ (fun _ => false)
        "XYZ-789" [("command", Val.str "start_heating")] 4).1 ≠ CmdResponse.err :=
  c4_disconnected_target_not_error envUp ⟨[(5, Val.str "XYZ-789")], [], [], []⟩
    (fun _ => false) "XYZ-789" [("command", Val.str "start_heating")] 4 rfl rfl
    (fun _ _ _ => rfl)

/-- C5: a command addressed to a plate that has a registered OPEN handle is
answered with `success` and `directSent` both true, and exactly one outbound
message carrying that command is appended, addressed to the selected handle —
whatever other connections exist in the registry. -/
theorem c5_live_target_delivered_once (env : Env) (st : GatewayState)
    (o : Nat → Bool) (plate : String) (body : List (String × Val)) (now : Nat)
    (hredis : env.redisUp = true) (hpub : env.publishOk = true)
    (hlive : ∃ e ∈ st.registry, valEqStr e.2 plate = true ∧ o e.1 = true) :
    ∃ w, findCar st.registry o plate = some w ∧ o w = true ∧
      (∃ v, (w, v) ∈ st.registry ∧ valEqStr v plate = true) ∧
      (postCommand env st o plate body now).1 = CmdResponse.ok true true ∧
      (postCommand env st o plate body now).2.sends =
        st.sends ++ [(w, ⟨"command", getField body "command", now⟩)] := by
  obtain ⟨w, hw⟩ := findCar_isSome st.registry o plate hlive
  obtain ⟨ho, v, hv, hvp⟩ := findCar_mem_open st.registry o plate w hw
  refine ⟨w, hw, ho, ⟨v, hv, hvp⟩, ?_, ?_⟩ <;>
    (unfold postCommand; simp [hredis, hpub, hw])

/-- C5 witness: car XYZ-789 has one active session (handle 5). -/
theorem c5_witness :
    ∃ w, findCar [(5, Val.str "XYZ-789")] (fun _ => true) "XYZ-789" = some w ∧
      (fun _ : Nat => true) w = true ∧
      (∃ v, (w, v) ∈ [(5, Val.str "XYZ-789")] ∧ valEqStr v "XYZ-789" = true) ∧
      (postCommand envUp ⟨[(5, Val.str "XYZ-789")], [], [], []⟩ (fun _ => true)
          "XYZ-789" [("command", Val.str "start_heating")] 9).1 =
        CmdResponse.ok true true ∧
      (postCommand envUp ⟨[(5, Val.str "XYZ-789")], [], [], []⟩ (fun _ => true)
          "XYZ-789" [("command", Val.str "start_heating")] 9).2.sends =
        [] ++ [(w, ⟨"command",
          getField [("command", Val.str "start_heating")] "command", 9⟩)] :=
  c5_live_target_delivered_once envUp ⟨[(5, Val.str "XYZ-789")], [], [], []⟩
    (fun _ => true) "XYZ-789" [("command", Val.str "start_heating")] 9 rfl rfl
    ⟨(5, Val.str "XYZ-789"), by simp, by decide, rfl⟩

/-- C6: the claim states a command request without a command name is rejected
with a MissingCommand 4xx. The endpoint performs no such check: with an empty
body it publishes the command object with an undefined command and answers
200 `{success: true, directSent: false}`. -/
theorem c6_missing_command_accepted :
    getField ([] : List (String × Val)) "command" = none ∧
    (postCommand envUp initState (fun _ => true) "ABC-123" [] 3).1 =
      CmdResponse.ok true false ∧
    statusOf (postCommand envUp initState (fun _ => true) "ABC-123" [] 3).1 = 200 ∧
    (postCommand envUp initState (fun _ => true) "ABC-123" [] 3).2.published =
      [(Chan.commands "ABC-123", PubMsg.cmd "ABC-123" none 3)] :=
  ⟨rfl, rfl, rfl, rfl⟩

/-- C7 counterexample: a frame field is not passed through unchanged — a
sender-supplied `_id` is overwritten with `undefined` by the document
construction, refuting "every other field is passed through unchanged". -/
theorem c7_counterexample :
    getField [("_id", Val.str "sender-id"), ("licensePlate", Val.str "ABC-123")]
      "_id" = some (Val.str "sender-id") ∧
    getField (mkDocument
        [("_id", Val.str "sender-id"), ("licensePlate", Val.str "ABC-123")] 5)
      "_id" = some Val.undef ∧
    Val.undef ≠ Val.str "sender-id" :=
  ⟨rfl, rfl, by decide⟩

/-- C7 amended: the stored record is the frame with its `timestamp` replaced
by the server-assigned ingest instant and its `_id` cleared to `undefined`
(so the store allocates the id); every field other than those two is passed
through unchanged. -/
theorem c7_record_fields (carData : List (String × Val)) (now : Nat)
    (k : String) (hk1 : k ≠ "timestamp") (hk2 : k ≠ "_id") :
    getField (mkDocument carData now) "timestamp" = some (Val.date now) ∧
    getField (mkDocument carData now) "_id" = some Val.undef ∧
    getField (mkDocument carData now) k = getField carData k := by
  refine ⟨?_, ?_, ?_⟩
  · unfold mkDocument
    rw [getField_objSet_ne _ "_id" "timestamp" _ (by decide)]
    exact getField_objSet_self _ _ _
  · exact getField_objSet_self _ _ _
  · unfold mkDocument
    rw [getField_objSet_ne _ "_id" k _ hk2, getField_objSet_ne _ "timestamp" k _ hk1]

/-- C7 witness on the scenario frame of spec §8. -/
theorem c7_witness :
    getField (mkDocument frameScenario 11) "timestamp" = some (Val.date 11) ∧
    getField (mkDocument frameScenario 11) "_id" = some Val.undef ∧
    getField (mkDocument frameScenario 11) "indoorTemp" =
      getField frameScenario "indoorTemp" :=
  c7_record_fields frameScenario 11 "indoorTemp" (by decide) (by decide)

-- Effect lemmas for the message handler, used by the independence claim.

/-- `storeCarData` only ever touches the record list. -/
theorem published_storeCarData (env : Env) (st : GatewayState)
    (d : List (String × Val)) (t : Nat) :
    (storeCarData env st d t).published = st.published := by
  unfold storeCarData
  split
  · split <;> rfl
  · rfl

/-- What the handler publishes, as a function of the frame and the bus
flags only. -/
theorem published_onMessage (env : Env) (st : GatewayState) (ws : Nat)
    (d : List (String × Val)) (now : Nat) :
    (onMessage env st ws d now).published =
      match getField d "licensePlate" with
      | some v =>
          if truthy v then
            if env.redisUp then
              if env.publishOk then
                st.published ++ [(Chan.data v, PubMsg.frame d)]
              else st.published
            else st.published
          else st.published
      | none => st.published := by
  unfold onMessage
  cases hp : getField d "licensePlate" with
  | none => simp [hp, published_storeCarData]
  | some v =>
      by_cases hv : truthy v = true
      · cases hr : env.redisUp <;> cases hq : env.publishOk <;>
          simp [hp, hv, hr, hq, published_storeCarData]
      · simp only [Bool.not_eq_true] at hv
        simp [hp, hv, published_storeCarData]

/-- What the handler stores, as a function of the frame and the store flags
only. -/
theorem storeRecords_onMessage (env : Env) (st : GatewayState) (ws : Nat)
    (d : List (String × Val)) (now : Nat) :
    (onMessage env st ws d now).storeRecords =
      if env.mongoUp then
        if env.storeOk then st.storeRecords ++ [mkDocument d now]
        else st.storeRecords
      else st.storeRecords := by
  unfold onMessage storeCarData
  cases hp : getField d "licensePlate" with
  | none => cases hm : env.mongoUp <;> cases hs : env.storeOk <;> simp [hp, hm, hs]
  | some v =>
      by_cases hv : truthy v = true
      · cases hm : env.mongoUp <;> cases hs : env.storeOk <;>
          cases hr : env.redisUp <;> cases hq : env.publishOk <;>
          simp [hp, hv, hm, hs, hr, hq]
      · simp only [Bool.not_eq_true] at hv
        cases hm : env.mongoUp <;> cases hs : env.storeOk <;> simp [hp, hv, hm, hs]

/-- C8: the store write and the bus publish of a frame are attempted
independently — what is published does not depend on the store outcome and
what is stored does not depend on the publish outcome — and neither failure
stops the connection: after arbitrary earlier frames with failing I/O, a
frame whose own store succeeds is still written. -/
theorem c8_store_publish_independent (env : Env) (st : GatewayState) (ws : Nat)
    (d : List (String × Val)) (now : Nat) :
    (onMessage { env with storeOk := false } st ws d now).published =
      (onMessage { env with storeOk := true } st ws d now).published ∧
    (onMessage { env with publishOk := false } st ws d now).storeRecords =
      (onMessage { env with publishOk := true } st ws d now).storeRecords ∧
    ∀ (items : List (Env × Option (List (String × Val)) × Nat)) (env' : Env)
      (f : List (String × Val)) (t : Nat),
      env'.mongoUp = true → env'.storeOk = true →
      (processFrames st ws (items ++ [(env', some f, t)])).storeRecords =
        (processFrames st ws items).storeRecords ++ [mkDocument f t] := by
  refine ⟨?_, ?_, ?_⟩
  · rw [published_onMessage, published_onMessage]
  · rw [storeRecords_onMessage, storeRecords_onMessage]
  · intro items env' f t hm hs
    have hsplit : processFrames st ws (items ++ [(env', some f, t)]) =
        onRaw env' (processFrames st ws items) ws (some f) t := by
      unfold processFrames
      rw [List.foldl_append]
      rfl
    rw [hsplit]
    show (onMessage env' (processFrames st ws items) ws f t).storeRecords = _
    rw [storeRecords_onMessage]
    simp [hm, hs]

/-- C8 witness: the first frame fails both its store and its publish; the
second frame is still processed and stored. -/
theorem c8_witness :
    (onMessage { envUp with storeOk := false } initState 1 frameScenario 7).published =
      (onMessage { envUp with storeOk := true } initState 1 frameScenario 7).published ∧
    (onMessage { envUp with publishOk := false } initState 1 frameScenario 7).storeRecords =
      (onMessage { envUp with publishOk := true } initState 1 frameScenario 7).storeRecords ∧
    (processFrames initState 1
        ([(⟨true, true, false, false⟩, some frameScenario, 2)] ++
          [(envUp, some frame150, 3)])).storeRecords =
      (processFrames initState 1
        [(⟨true, true, false, false⟩, some frameScenario, 2)]).storeRecords ++
        [mkDocument frame150 3] := by
  have h := c8_store_publish_independent envUp initState 1 frameScenario 7
  exact ⟨h.1, h.2.1,
    h.2.2 [(⟨true, true, false, false⟩, some frameScenario, 2)] envUp frame150 3 rfl rfl⟩

/-- C9: a connection that never sends an identifying frame never owns a
registry entry, is never selected by the command-delivery lookup, and the
health endpoint's session count is the length of the duplicate-free key list
of the registry, whose members are exactly handles that sent an identifying
frame. -/
theorem c9_anonymous_excluded (env : Env) (evs : List Event) (ws : Nat)
    (hanon : ∀ e ∈ evs, identifies e ws = false) :
    isRegistered (run env evs) ws = false ∧
    (∀ (o : Nat → Bool) (p : String), findCar (run env evs).registry o p ≠ some ws) ∧
    healthCount (run env evs) = ((run env evs).registry.map Prod.fst).length ∧
    ((run env evs).registry.map Prod.fst).Nodup ∧
    (∀ w, w ∈ (run env evs).registry.map Prod.fst →
      ∃ e ∈ evs, identifies e w = true) := by
  obtain ⟨hwf, hnd⟩ := run_registry_inv env evs
  have h0 : regWF initState.registry := by intro e he; simp [initState] at he
  have hchar : ∀ w, isRegistered (run env evs) w = trackLive evs w false := by
    intro w
    have h := isRegistered_runFrom env evs initState w h0
    rw [show run env evs = runFrom env initState evs from rfl, h]
    rfl
  have hreg : isRegistered (run env evs) ws = false := by
    rw [hchar ws]
    exact trackLive_stays_false evs ws hanon
  refine ⟨hreg, ?_, ?_, hnd, ?_⟩
  · intro o p hfind
    obtain ⟨_, v, hv, _⟩ := findCar_mem_open (run env evs).registry o p ws hfind
    have hmem : ws ∈ (run env evs).registry.map Prod.fst :=
      List.mem_map.mpr ⟨(ws, v), hv, rfl⟩
    have := (mem_keys_iff_mapGet (run env evs).registry ws).mp hmem
    simp [isRegistered, this] at hreg
  · simp [healthCount]
  · intro w hw
    have h1 := (mem_keys_iff_mapGet (run env evs).registry w).mp hw
    have h2 : trackLive evs w false = true := by
      rw [← hchar w]
      simpa [isRegistered] using h1
    rcases trackLive_true_source evs w false h2 with hb | hex
    · simp at hb
    · exact hex

/-- C9 witness: handle 2 sent only an unidentifiable frame; handle 1 is the
only counted, routable session. -/
theorem c9_witness :
    isRegistered (run envUp
      [Event.connect 1 0, Event.connect 2 0,
       Event.message 1 (some [("licensePlate", Val.str "ABC-123")]) 1,
       Event.message 2 (some [("indoorTemp", Val.num 21)]) 2]) 2 = false ∧
    (∀ (o : Nat → Bool) (p : String),
      findCar (run envUp
        [Event.connect 1 0, Event.connect 2 0,
         Event.message 1 (some [("licensePlate", Val.str "ABC-123")]) 1,
         Event.message 2 (some [("indoorTemp", Val.num 21)]) 2]).registry o p ≠ some 2) ∧
    healthCount (run envUp
      [Event.connect 1 0, Event.connect 2 0,
       Event.message 1 (some [("licensePlate", Val.str "ABC-123")]) 1,
       Event.message 2 (some [("indoorTemp", Val.num 21)]) 2]) =
      ((run envUp
        [Event.connect 1 0, Event.connect 2 0,
         Event.message 1 (some [("licensePlate", Val.str "ABC-123")]) 1,
         Event.message 2 (some [("indoorTemp", Val.num 21)]) 2]).registry.map
          Prod.fst).length ∧
    ((run envUp
      [Event.connect 1 0, Event.connect 2 0,
       Event.message 1 (some [("licensePlate", Val.str "ABC-123")]) 1,
       Event.message 2 (some [("indoorTemp", Val.num 21)]) 2]).registry.map
        Prod.fst).Nodup ∧
    (∀ w, w ∈ (run envUp
      [Event.connect 1 0, Event.connect 2 0,
       Event.message 1 (some [("licensePlate", Val.str "ABC-123")]) 1,
       Event.message 2 (some [("indoorTemp", Val.num 21)]) 2]).registry.map Prod.fst →
      ∃ e ∈ [Event.connect 1 0, Event.connect 2 0,
        Event.message 1 (some [("licensePlate", Val.str "ABC-123")]) 1,
        Event.message 2 (some [("indoorTemp", Val.num 21)]) 2],
        identifies e w = true) :=
  c9_anonymous_excluded envUp
    [Event.connect 1 0, Event.connect 2 0,
     Event.message 1 (some [("licensePlate", Val.str "ABC-123")]) 1,
     Event.message 2 (some [("indoorTemp", Val.num 21)]) 2] 2
    (by
      intro e he
      simp only [List.mem_cons, List.mem_singleton] at he
      rcases he with rfl | rfl | rfl | rfl | h
      · rfl
      · rfl
      · simp [identifies]
      · simp [identifies, getField]
      · simp at h)

/-- C10: a direct send is only ever performed over a registered handle whose
socket is OPEN (the lookup only selects such handles), and when every handle
registered for the target plate is non-OPEN, no message is sent on any of the
three delivery paths and the API result reports directSent (delivered) false. -/
theorem c10_send_only_open (env : Env) (st : GatewayState) (o : Nat → Bool)
    (plate : String) (body : List (String × Val)) (now ts : Nat) (c : Option Val)
    (d : List (String × Val))
    (hredis : env.redisUp = true) (hpub : env.publishOk = true)
    (hclosed : ∀ e ∈ st.registry, valEqStr e.2 plate = true → o e.1 = false) :
    (∀ (l : List (Nat × Val)) (o' : Nat → Bool) (p : String) (w : Nat),
      findCar l o' p = some w →
        o' w = true ∧ ∃ v, (w, v) ∈ l ∧ valEqStr v p = true) ∧
    findCar st.registry o plate = none ∧
    (postCommand env st o plate body now).1 = CmdResponse.ok true false ∧
    (postCommand env st o plate body now).2.sends = st.sends ∧
    (handleCarCommand st o (some (plate, c, ts))).sends = st.sends ∧
    (handleMqttMessage st o plate (some d) now).sends = st.sends := by
  have hfind := findCar_eq_none st.registry o plate hclosed
  refine ⟨fun l o' p w h => findCar_mem_open l o' p w h, hfind, ?_, ?_, ?_, ?_⟩
  · unfold postCommand; simp [hredis, hpub, hfind]
  · unfold postCommand; simp [hredis, hpub, hfind]
  · unfold handleCarCommand; simp [hfind]
  · unfold handleMqttMessage
    cases hc : getField d "command" with
    | none => simp [hc]
    | some cv =>
        by_cases hcv : truthy cv = true
        · simp [hc, hcv, hfind]
        · simp only [Bool.not_eq_true] at hcv
          simp [hc, hcv]

/-- C10 witness: car XYZ-789 is registered on handle 5 whose socket is no
longer OPEN. -/
theorem c10_witness :
    (∀ (l : List (Nat × Val)) (o' : Nat → Bool) (p : String) (w : Nat),
      findCar l o' p = some w →
        o' w = true ∧ ∃ v, (w, v) ∈ l ∧ valEqStr v p = true) ∧
    findCar [(5, Val.str "XYZ-789")] (fun _ => false) "XYZ-789" = none ∧
    (postCommand envUp ⟨[(5, Val.str "XYZ-789")], [], [], []⟩ (fun _ => false)
        "XYZ-789" [("command", Val.str "unlock")] 8).1 = CmdResponse.ok true false ∧
    (postCommand envUp ⟨[(5, Val.str "XYZ-789")], [], [], []⟩ (fun _ => false)
        "XYZ-789" [("command", Val.str "unlock")] 8).2.sends = [] ∧
    (handleCarCommand ⟨[(5, Val.str "XYZ-789")], [], [], []⟩ (fun _ => false)
        (some ("XYZ-789", some (Val.str "unlock"), 8))).sends = [] ∧
    (handleMqttMessage ⟨[(5, Val.str "XYZ-789")], [], [], []⟩ (fun _ => false)
        "XYZ-789" (some [("command", Val.str "unlock")]) 8).sends = [] :=
  c10_send_only_open envUp ⟨[(5, Val.str "XYZ-789")], [], [], []⟩ (fun _ => false)
    "XYZ-789" [("command", Val.str "unlock")] 8 8 (some (Val.str "unlock"))
    [("command", Val.str "unlock")] rfl rfl
    (by intro e he h; rfl)
